import Mathlib

/-!
Shallow embedding of the API-SCHEDULER core (src/app) and verification of the
frozen claims about it.

Conventions of the embedding:
* timestamps (`datetime`) are modelled as natural numbers (seconds);
* latency values are modelled as natural numbers (milliseconds);
* a response body is modelled by its decoded text (`List Char`); the raw
  byte content (`response.content` in the source) is modelled as the UTF-8
  encoding of that text, so its length is `utf8Len text`;
* fallible operations return `Option`, raised exceptions are explicit flags;
* the database is a record of lists of rows; a SQLAlchemy session's
  commit/rollback is modelled by returning either the updated or the
  pre-exception database.
-/

namespace ApiScheduler

/-! ## Enumerations (src/app/models.py) -/

/-- `RunStatus` from src/app/models.py. -/
inductive RunStatus
  | SUCCESS
  | FAILED
  | TIMEOUT
  | DNS_ERROR
  | CONNECTION_ERROR
deriving DecidableEq, Repr

/-- `ScheduleStatus` from src/app/models.py. -/
inductive ScheduleStatus
  | ACTIVE
  | PAUSED
  | STOPPED
deriving DecidableEq, Repr

/-- `ScheduleType` from src/app/models.py. -/
inductive ScheduleType
  | INTERVAL
  | WINDOW
deriving DecidableEq, Repr

/-- `HTTPMethod` from src/app/models.py. -/
inductive HTTPMethod
  | GET
  | POST
  | PUT
  | PATCH
  | DELETE
  | HEAD
  | OPTIONS
deriving DecidableEq, Repr

/-! ## Rows (src/app/models.py) -/

/-- `Target` row (src/app/models.py). -/
structure Target where
  id : Nat
  name : String
  url : String
  method : HTTPMethod
  headers : Option String
  body_template : Option String
deriving DecidableEq, Repr

/-- `Schedule` row (src/app/models.py). -/
structure Schedule where
  id : Nat
  name : String
  target_id : Nat
  schedule_type : ScheduleType
  interval_seconds : Nat
  duration_seconds : Option Nat
  status : ScheduleStatus
  created_at : Nat
  started_at : Option Nat
  stopped_at : Option Nat
  job_id : Option String
deriving DecidableEq, Repr

/-- `Run` row (src/app/models.py).  `response_headers` keeps the header
list itself rather than its JSON serialization; `response_body` is the
decoded text stored for the run. -/
structure Run where
  id : Nat
  schedule_id : Nat
  status : RunStatus
  started_at : Nat
  completed_at : Option Nat
  status_code : Option Nat
  latency_ms : Option Nat
  response_size_bytes : Option Nat
  error_message : Option String
  error_type : Option String
  request_url : String
  request_method : HTTPMethod
  request_headers : Option String
  request_body : Option String
  response_headers : Option (List (String × String))
  response_body : Option (List Char)
deriving DecidableEq, Repr

/-- `Attempt` row (src/app/models.py). -/
structure Attempt where
  run_id : Nat
  attempt_number : Nat
  status : RunStatus
  started_at : Nat
  completed_at : Option Nat
  status_code : Option Nat
  latency_ms : Option Nat
  error_message : Option String
  error_type : Option String
deriving DecidableEq, Repr

/-- The persistent store: the four tables. -/
structure DB where
  targets : List Target
  schedules : List Schedule
  runs : List Run
  attempts : List Attempt
deriving DecidableEq, Repr

/-- `select(Schedule).filter(Schedule.id == sid)` + `scalar_one_or_none()`. -/
def findSchedule (db : DB) (sid : Nat) : Option Schedule :=
  db.schedules.find? (fun s => s.id == sid)

/-- `select(Target).filter(Target.id == tid)` + `scalar_one_or_none()`. -/
def findTarget (db : DB) (tid : Nat) : Option Target :=
  db.targets.find? (fun t => t.id == tid)

/-- Apply `f` to the schedule row with id `sid` (an UPDATE of that row). -/
def setSchedule (db : DB) (sid : Nat) (f : Schedule → Schedule) : DB :=
  { db with schedules := db.schedules.map (fun s => if s.id == sid then f s else s) }

/-! ## HTTP executor (src/app/services/executor.py) -/

/-- UTF-8 byte length of a decoded text; `len(response.content)` in the
source is this number when the content is the UTF-8 encoding of the text. -/
def utf8Len (l : List Char) : Nat := (l.map Char.utf8Size).sum

/-- The data captured from an HTTP response (`response_data` dict in
`_execute_request`): headers and the decoded body text. -/
structure ResponseData where
  headers : List (String × String)
  text : List Char
deriving DecidableEq, Repr

/-- The exceptions `_execute_request` can catch, in the shape httpx raises
them.  `connectError` covers every connection-phase failure httpx surfaces
as `httpx.ConnectError` — connection refused/reset/unreachable and also
hostname-resolution failure, whose message is e.g.
"[Errno -2] Name or service not known".  `other` is any exception not
matched by the three dedicated `except` clauses. -/
inductive HTTPError
  | timeoutException (msg : String)
  | connectError (msg : String)
  | connectTimeout (msg : String)
  | other (msg : String)
deriving DecidableEq, Repr

/-- The result of awaiting the HTTP request: a response, or a raised error. -/
inductive HTTPResult
  | response (code : Nat) (data : ResponseData)
  | error (e : HTTPError)
deriving DecidableEq, Repr

/-- The tuple `_execute_request` returns:
`(status, latency_ms, status_code, error_message, error_type, response_data)`. -/
structure ExecOutcome where
  status : RunStatus
  latency_ms : Option Nat
  status_code : Option Nat
  error_message : Option String
  error_type : Option String
  response_data : Option ResponseData
deriving DecidableEq, Repr

/-- Status-code classification of `_execute_request`
(src/app/services/executor.py lines 162-191): the `if 200 <= code < 300` /
`elif code >= 500` / `elif code >= 400` / `else` chain, returning
(status, error_message, error_type). -/
def classifyResponse (code : Nat) : RunStatus × Option String × Option String :=
  if 200 ≤ code ∧ code < 300 then
    (.SUCCESS, none, none)
  else if 500 ≤ code then
    (.FAILED, some ("Server error: " ++ toString code), some "http_5xx")
  else if 400 ≤ code then
    (.FAILED, some ("Client error: " ++ toString code), some "http_4xx")
  else
    (.FAILED, some ("Unexpected status: " ++ toString code), some "http_unexpected")

/-- `'name or service not known' in error_str` for lowercased `error_str`:
substring containment on the character lists. -/
def containsToken (msg : List Char) (token : List Char) : Bool :=
  match msg with
  | [] => token.isEmpty
  | c :: rest => token.isPrefixOf (c :: rest) || containsToken rest token

/-- `str(e).lower()` on the character list of the message. -/
def lowerChars (msg : String) : List Char := msg.data.map Char.toLower

/-- The DNS check in the generic `except Exception` branch
(src/app/services/executor.py lines 207-210). -/
def isDnsMessage (msg : String) : Bool :=
  containsToken (lowerChars msg) "name or service not known".data
    || containsToken (lowerChars msg) "nodename nor servname provided".data

/-- Exception classification of `_execute_request`
(src/app/services/executor.py lines 193-211): the `except` clauses in
source order.  `connectTimeout` keeps its own branch as in the source; its
outcome equals the timeout branch (in httpx `ConnectTimeout` is a
`TimeoutException`, so the first clause would catch it anyway). -/
def classifyError (e : HTTPError) (latency : Nat) : ExecOutcome :=
  match e with
  | .timeoutException msg =>
      ⟨.TIMEOUT, some latency, none, some msg, some "timeout", none⟩
  | .connectError msg =>
      ⟨.CONNECTION_ERROR, some latency, none, some msg, some "connection", none⟩
  | .connectTimeout msg =>
      ⟨.TIMEOUT, some latency, none, some msg, some "timeout", none⟩
  | .other msg =>
      if isDnsMessage msg then
        ⟨.DNS_ERROR, some latency, none, some msg, some "dns", none⟩
      else
        ⟨.FAILED, some latency, none, some msg, some "unknown", none⟩

/-- `_execute_request` (src/app/services/executor.py lines 118-211): issue
the request, time it, classify.  The network behaviour (response or raised
error) and the measured latency are inputs to the model. -/
def executeRequest (res : HTTPResult) (latency : Nat) : ExecOutcome :=
  match res with
  | .response code data =>
      let c := classifyResponse code
      ⟨c.1, some latency, some code, c.2.1, c.2.2, some data⟩
  | .error e => classifyError e latency

/-- The provisional run row inserted before the request is issued
(src/app/services/executor.py lines 55-66): status defaults to FAILED,
request snapshot copied from the target, `started_at = now`. -/
def mkProvisionalRun (rid sid : Nat) (tg : Target) (now1 : Nat) : Run :=
  { id := rid
    schedule_id := sid
    status := .FAILED
    started_at := now1
    completed_at := none
    status_code := none
    latency_ms := none
    response_size_bytes := none
    error_message := none
    error_type := none
    request_url := tg.url
    request_method := tg.method
    request_headers := tg.headers
    request_body := tg.body_template
    response_headers := none
    response_body := none }

/-- The run-update step of `execute_schedule`
(src/app/services/executor.py lines 76-87): final fields from the outcome,
`completed_at = now`, and when response data is present the headers, the
body text truncated by the slice `[:10000]`, and the full content size. -/
def mkFinalRun (r0 : Run) (o : ExecOutcome) (now2 : Nat) : Run :=
  let r1 := { r0 with
    status := o.status
    latency_ms := o.latency_ms
    status_code := o.status_code
    error_message := o.error_message
    error_type := o.error_type
    completed_at := some now2 }
  match o.response_data with
  | none => r1
  | some d =>
      { r1 with
        response_headers := some d.headers
        response_body := some (d.text.take 10000)
        response_size_bytes := some (utf8Len d.text) }

/-- The attempt row built in `execute_schedule`
(src/app/services/executor.py lines 89-100): `attempt_number = 1`, the
other fields mirroring the run's final fields. -/
def mkAttempt (rF : Run) : Attempt :=
  { run_id := rF.id
    attempt_number := 1
    status := rF.status
    started_at := rF.started_at
    completed_at := rF.completed_at
    status_code := rF.status_code
    latency_ms := rF.latency_ms
    error_message := rF.error_message
    error_type := rF.error_type }

/-- `RequestExecutor.execute_schedule` (src/app/services/executor.py lines
23-116).  Inputs beyond the store: the observed clock values `now1`/`now2`,
the id the insert assigns to the run, the network behaviour and measured
latency, and `commitFails`, which injects a raised exception at the final
commit (after the provisional run was committed).  On that exception the
session is rolled back, so the returned store is the one committed with the
provisional run, and the function returns no run — this is all the
`except` block does besides logging. -/
def executeSchedule (db : DB) (sid : Nat) (now1 now2 rid : Nat)
    (res : HTTPResult) (latency : Nat) (commitFails : Bool) : DB × Option Run :=
  match findSchedule db sid with
  | none => (db, none)
  | some s =>
    match findTarget db s.target_id with
    | none => (db, none)
    | some tg =>
      let r0 := mkProvisionalRun rid sid tg now1
      let db1 : DB := { db with runs := db.runs ++ [r0] }
      let o := executeRequest res latency
      let rF := mkFinalRun r0 o now2
      if commitFails then
        (db1, none)
      else
        ({ db1 with
            runs := db1.runs.map (fun r => if r.id == rid then rF else r)
            attempts := db1.attempts ++ [mkAttempt rF] },
         some rF)

/-! ## Scheduler service (src/app/scheduler.py) -/

/-- The two callbacks a registered job can carry: the firing callback
`_execute_job(schedule_id)` and the WINDOW stop hook
`_stop_window_schedule(schedule_id)`. -/
inductive JobAction
  | fire (sid : Nat)
  | stopWindow (sid : Nat)
deriving DecidableEq, Repr

/-- An APScheduler trigger: `'interval'` with optional `end_date`, or a
one-shot `'date'` trigger. -/
inductive Trigger
  | interval (seconds : Nat) (end_date : Option Nat)
  | date (run_date : Nat)
deriving DecidableEq, Repr

/-- A registered job in the in-memory job store. -/
structure JobEntry where
  id : String
  trigger : Trigger
  action : JobAction
deriving DecidableEq, Repr

/-- `f"schedule_{schedule.id}"`. -/
def jobName (sid : Nat) : String := "schedule_" ++ toString sid

/-- `f"{job_id}_stop"`. -/
def stopJobName (sid : Nat) : String := jobName sid ++ "_stop"

/-- `scheduler.remove_job(name)` guarded by `get_job`: drop the entry with
that id if present. -/
def removeJobEntry (reg : List JobEntry) (name : String) : List JobEntry :=
  reg.filter (fun j => j.id != name)

/-- `scheduler.add_job(..., id=name, replace_existing=True)`. -/
def upsertJob (reg : List JobEntry) (j : JobEntry) : List JobEntry :=
  removeJobEntry reg j.id ++ [j]

/-- Result of `SchedulerService.add_job`: the registry and schedule row
afterwards, and whether the call raised.  (`raised` models the `TypeError`
from `timedelta(seconds=None)` when a WINDOW schedule lacks
`duration_seconds`.) -/
structure AddJobResult where
  registry : List JobEntry
  schedule : Schedule
  raised : Bool
deriving DecidableEq, Repr

/-- `SchedulerService.add_job` (src/app/scheduler.py lines 77-146), with
one clock reading `now` standing for the `datetime.utcnow()` calls of a
single invocation. -/
def addJob (reg : List JobEntry) (s : Schedule) (now : Nat) : AddJobResult :=
  let jid := jobName s.id
  let reg1 := removeJobEntry reg jid
  match s.schedule_type with
  | .INTERVAL =>
      let reg2 := upsertJob reg1 ⟨jid, .interval s.interval_seconds none, .fire s.id⟩
      ⟨reg2, { s with job_id := some jid }, false⟩
  | .WINDOW =>
      let s1 := if s.started_at = none then { s with started_at := some now } else s
      match s1.duration_seconds with
      | none => ⟨reg1, s1, true⟩
      | some d =>
        let endT := s1.started_at.getD now + d
        if endT ≤ now then
          ⟨reg1, { s1 with status := .STOPPED, stopped_at := some now }, false⟩
        else
          let reg2 := upsertJob reg1 ⟨jid, .interval s.interval_seconds (some endT), .fire s.id⟩
          let reg3 := upsertJob reg2 ⟨stopJobName s.id, .date endT, .stopWindow s.id⟩
          ⟨reg3, { s1 with job_id := some jid }, false⟩

/-- `SchedulerService._stop_window_schedule` (src/app/scheduler.py lines
196-205): an unconditional `UPDATE schedules SET status = STOPPED,
stopped_at = now WHERE id = sid`. -/
def stopWindowSchedule (db : DB) (sid : Nat) (now : Nat) : DB :=
  setSchedule db sid (fun s => { s with status := .STOPPED, stopped_at := some now })

/-- `SchedulerService._execute_job` (src/app/scheduler.py lines 174-194):
load the schedule; return if missing; return if not ACTIVE; otherwise run
the executor.  Returns the store afterwards. -/
def executeJob (db : DB) (sid : Nat) (now1 now2 rid : Nat)
    (res : HTTPResult) (latency : Nat) (commitFails : Bool) : DB :=
  match findSchedule db sid with
  | none => db
  | some s =>
    if s.status != .ACTIVE then db
    else (executeSchedule db sid now1 now2 rid res latency commitFails).1

/-! ## Admin API surface (src/app/api/schedules.py, src/app/schemas.py) -/

/-- Outcome of an admin endpoint call. -/
inductive ApiOutcome
  | ok
  | notFound
  | badRequest
deriving DecidableEq, Repr

/-- The accepted fields of `ScheduleCreate` (src/app/schemas.py). -/
structure ScheduleCreateData where
  name : String
  target_id : Nat
  schedule_type : ScheduleType
  interval_seconds : Nat
  duration_seconds : Option Nat
deriving DecidableEq, Repr

/-- The schedule row built by `create_schedule`
(src/app/api/schedules.py lines 43-50): status is `ACTIVE`, the timing and
job-handle columns take their column defaults. -/
def createdSchedule (c : ScheduleCreateData) (id created : Nat) : Schedule :=
  { id := id
    name := c.name
    target_id := c.target_id
    schedule_type := c.schedule_type
    interval_seconds := c.interval_seconds
    duration_seconds := c.duration_seconds
    status := .ACTIVE
    created_at := created
    started_at := none
    stopped_at := none
    job_id := none }

/-- `ScheduleUpdate` (src/app/schemas.py lines 88-92) after
`model_dump(exclude_unset=True)`: `some v` means the field was supplied. -/
structure ScheduleUpdate where
  name : Option String
  interval_seconds : Option Nat
  duration_seconds : Option Nat
deriving DecidableEq, Repr

/-- The field assignments of `update_schedule`
(src/app/api/schedules.py lines 129-148). -/
def applyScheduleUpdate (s : Schedule) (u : ScheduleUpdate) : Schedule :=
  let s1 := match u.name with
    | none => s
    | some n => { s with name := n }
  let s2 := match u.interval_seconds with
    | none => s1
    | some i => { s1 with interval_seconds := i }
  match u.duration_seconds with
  | none => s2
  | some d => { s2 with duration_seconds := d }

/-- Whether another schedule already holds the name (the conflict check of
`update_schedule`, src/app/api/schedules.py lines 130-141). -/
def nameConflict (db : DB) (sid : Nat) (n : String) : Bool :=
  db.schedules.any (fun x => x.name == n && x.id != sid)

/-- `update_schedule` (src/app/api/schedules.py lines 108-151), up to and
including its commit of the field assignments.  The subsequent
`scheduler_service.add_job` re-registration for ACTIVE schedules is a
separate call and not part of the row update itself. -/
def updateSchedule (db : DB) (sid : Nat) (u : ScheduleUpdate) : DB × ApiOutcome :=
  match findSchedule db sid with
  | none => (db, .notFound)
  | some _ =>
    match u.name with
    | some n =>
        if nameConflict db sid n then (db, .badRequest)
        else (setSchedule db sid (fun s => applyScheduleUpdate s u), .ok)
    | none => (setSchedule db sid (fun s => applyScheduleUpdate s u), .ok)

/-- `pause_schedule` (src/app/api/schedules.py lines 164-195): 404 when
missing, 400 when not ACTIVE, else set status to PAUSED and commit. -/
def pauseSchedule (db : DB) (sid : Nat) : DB × ApiOutcome :=
  match findSchedule db sid with
  | none => (db, .notFound)
  | some s =>
    if s.status != .ACTIVE then (db, .badRequest)
    else (setSchedule db sid (fun x => { x with status := .PAUSED }), .ok)

/-- `resume_schedule` (src/app/api/schedules.py lines 198-229): 404 when
missing, 400 when not PAUSED, else set status to ACTIVE and commit. -/
def resumeSchedule (db : DB) (sid : Nat) : DB × ApiOutcome :=
  match findSchedule db sid with
  | none => (db, .notFound)
  | some s =>
    if s.status != .PAUSED then (db, .badRequest)
    else (setSchedule db sid (fun x => { x with status := .ACTIVE }), .ok)

/-! ## Specification-side definition (for the state-machine claim) -/

/-- Modelled from the spec (§4.4 state machine): the arrows of the
`Schedule.status` state machine — pause, resume, and window-elapsed. -/
def specArrow (a b : ScheduleStatus) : Prop :=
  (a = .ACTIVE ∧ b = .PAUSED) ∨ (a = .PAUSED ∧ b = .ACTIVE) ∨
    (a = .ACTIVE ∧ b = .STOPPED)

instance (a b : ScheduleStatus) : Decidable (specArrow a b) := by
  unfold specArrow; infer_instance

/-! ## Fixtures -/

/-- A sample target row. -/
def tgEx : Target :=
  { id := 1, name := "t1", url := "https://ok.test/ping", method := .GET,
    headers := none, body_template := none }

/-- A sample ACTIVE interval schedule bound to `tgEx`. -/
def schedEx : Schedule :=
  { id := 1, name := "s1", target_id := 1, schedule_type := .INTERVAL,
    interval_seconds := 2, duration_seconds := none, status := .ACTIVE,
    created_at := 0, started_at := none, stopped_at := none,
    job_id := some "schedule_1" }

/-- Store with one target and one ACTIVE interval schedule. -/
def dbEx : DB := { targets := [tgEx], schedules := [schedEx], runs := [], attempts := [] }

/-- A WINDOW schedule that an operator paused mid-window. -/
def pausedWinSched : Schedule :=
  { id := 1, name := "w1", target_id := 1, schedule_type := .WINDOW,
    interval_seconds := 1, duration_seconds := some 3, status := .PAUSED,
    created_at := 0, started_at := some 0, stopped_at := none,
    job_id := some "schedule_1" }

/-- Store holding the paused WINDOW schedule. -/
def dbPausedWin : DB :=
  { targets := [tgEx], schedules := [pausedWinSched], runs := [], attempts := [] }

/-! ## Helper lemmas -/

theorem find?_upd (l : List Schedule) (sid : Nat) (f : Schedule → Schedule)
    (hf : ∀ x, (f x).id = x.id) (s : Schedule)
    (h : l.find? (fun x => x.id == sid) = some s) :
    (l.map (fun x => if x.id == sid then f x else x)).find? (fun x => x.id == sid)
      = some (f s) := by
  induction l with
  | nil => simp at h
  | cons y ys ih =>
    simp only [List.map_cons]
    by_cases hy : (y.id == sid) = true
    · rw [@List.find?_cons_of_pos _ (fun x => x.id == sid) y ys hy] at h
      injection h with h
      subst h
      rw [if_pos hy]
      exact @List.find?_cons_of_pos _ (fun x => x.id == sid) (f y) _
        (by simp only [hf]; exact hy)
    · rw [@List.find?_cons_of_neg _ (fun x => x.id == sid) y ys hy] at h
      rw [if_neg hy]
      rw [@List.find?_cons_of_neg _ (fun x => x.id == sid) y
        (List.map (fun x => if (x.id == sid) = true then f x else x) ys) hy]
      exact ih h

theorem findSchedule_setSchedule (db : DB) (sid : Nat) (f : Schedule → Schedule)
    (hf : ∀ x, (f x).id = x.id) (s : Schedule)
    (h : findSchedule db sid = some s) :
    findSchedule (setSchedule db sid f) sid = some (f s) := by
  unfold findSchedule setSchedule at *
  exact find?_upd db.schedules sid f hf s h

theorem mkFinalRun_fields (r0 : Run) (o : ExecOutcome) (n : Nat) :
    (mkFinalRun r0 o n).status = o.status ∧
    (mkFinalRun r0 o n).status_code = o.status_code ∧
    (mkFinalRun r0 o n).latency_ms = o.latency_ms ∧
    (mkFinalRun r0 o n).error_type = o.error_type ∧
    (mkFinalRun r0 o n).error_message = o.error_message ∧
    (mkFinalRun r0 o n).completed_at = some n ∧
    (mkFinalRun r0 o n).started_at = r0.started_at ∧
    (mkFinalRun r0 o n).id = r0.id := by
  cases h : o.response_data <;> simp [mkFinalRun, h]

theorem classifyResponse_fst (code : Nat) :
    (classifyResponse code).1 = .SUCCESS ∨ (classifyResponse code).1 = .FAILED := by
  unfold classifyResponse
  split
  · exact Or.inl rfl
  · split
    · exact Or.inr rfl
    · split <;> exact Or.inr rfl

/-! ## Claims -/

/-- C1 (counterexample): the claim says a status code at or above 600 yields
error_type http_unexpected, but `_execute_request` classifies every code
≥ 500 as http_5xx: code 600 yields FAILED with error_type "http_5xx". -/
theorem claim_C1_cex :
    (classifyResponse 600).1 = .FAILED ∧
    (classifyResponse 600).2.2 = some "http_5xx" ∧
    (classifyResponse 600).2.2 ≠ some "http_unexpected" := by
  refine ⟨rfl, rfl, ?_⟩
  decide

/-- C1 (amended): `_execute_request` classifies a response by status code
as: [200,300) → SUCCESS with no error_type; [400,500) → FAILED/http_4xx;
≥ 500 (not only [500,600)) → FAILED/http_5xx; below 200 or in [300,400) →
FAILED/http_unexpected. -/
theorem claim_C1 (code : Nat) :
    (200 ≤ code ∧ code < 300 →
      classifyResponse code = (.SUCCESS, none, none)) ∧
    (400 ≤ code ∧ code < 500 →
      classifyResponse code =
        (.FAILED, some ("Client error: " ++ toString code), some "http_4xx")) ∧
    (500 ≤ code →
      classifyResponse code =
        (.FAILED, some ("Server error: " ++ toString code), some "http_5xx")) ∧
    (code < 200 ∨ (300 ≤ code ∧ code < 400) →
      classifyResponse code =
        (.FAILED, some ("Unexpected status: " ++ toString code), some "http_unexpected")) := by
  refine ⟨fun h => ?_, fun h => ?_, fun h => ?_, fun h => ?_⟩
  · unfold classifyResponse; rw [if_pos h]
  · unfold classifyResponse
    rw [if_neg (by omega), if_neg (by omega), if_pos (by omega)]
  · unfold classifyResponse
    rw [if_neg (by omega), if_pos (by omega)]
  · unfold classifyResponse
    rw [if_neg (by omega), if_neg (by omega), if_neg (by omega)]

/-- Witness for C1's amended theorem at codes 204, 404, 503 and 302. -/
theorem claim_C1_witness :
    classifyResponse 204 = (.SUCCESS, none, none) ∧
    classifyResponse 404 =
      (.FAILED, some ("Client error: " ++ toString 404), some "http_4xx") ∧
    classifyResponse 503 =
      (.FAILED, some ("Server error: " ++ toString 503), some "http_5xx") ∧
    classifyResponse 302 =
      (.FAILED, some ("Unexpected status: " ++ toString 302), some "http_unexpected") :=
  ⟨(claim_C1 204).1 (by omega), (claim_C1 404).2.1 (by omega),
   (claim_C1 503).2.2.1 (by omega), (claim_C1 302).2.2.2 (by omega)⟩

/-- The message with which httpx surfaces a hostname-resolution failure:
it raises `httpx.ConnectError` wrapping the resolver's OSError. -/
def dnsFailureMsg : String := "[Errno -2] Name or service not known"

/-- C2 (code bug): the firing of a target whose hostname fails to resolve
reaches the `except httpx.ConnectError` clause, because httpx raises
`ConnectError` for resolution failures; that clause returns
CONNECTION_ERROR/"connection".  The DNS-token check sits in the generic
`except Exception` clause, which such an error never reaches — as the third
conjunct shows, the token check itself would have recognised the message. -/
theorem claim_C2_bug :
    isDnsMessage dnsFailureMsg = true ∧
    classifyError (.connectError dnsFailureMsg) 5 =
      ⟨.CONNECTION_ERROR, some 5, none, some dnsFailureMsg, some "connection", none⟩ ∧
    classifyError (.other dnsFailureMsg) 5 =
      ⟨.DNS_ERROR, some 5, none, some dnsFailureMsg, some "dns", none⟩ := by
  refine ⟨by decide, rfl, by decide⟩

/-- C3: every run the executor returns carries `latency_ms` (measured on
failure paths too), and when its status is TIMEOUT, DNS_ERROR or
CONNECTION_ERROR its `status_code` is null and its `error_type` matches
the status. -/
theorem claim_C3 (db : DB) (sid now1 now2 rid : Nat) (res : HTTPResult)
    (lat : Nat) (cf : Bool) (r : Run)
    (h : (executeSchedule db sid now1 now2 rid res lat cf).2 = some r) :
    r.latency_ms.isSome = true ∧
    (r.status = .TIMEOUT → r.status_code = none ∧ r.error_type = some "timeout") ∧
    (r.status = .DNS_ERROR → r.status_code = none ∧ r.error_type = some "dns") ∧
    (r.status = .CONNECTION_ERROR →
      r.status_code = none ∧ r.error_type = some "connection") := by
  unfold executeSchedule at h
  split at h
  · exact absurd h (by simp)
  · split at h
    · exact absurd h (by simp)
    · rename_i s hs tg ht
      cases cf with
      | true => exact absurd h (by simp)
      | false =>
        rw [if_neg Bool.false_ne_true] at h
        simp only [Option.some.injEq] at h
        subst h
        obtain ⟨h1, h2, h3, h4, -, -, -, -⟩ :=
          mkFinalRun_fields (mkProvisionalRun rid sid tg now1) (executeRequest res lat) now2
        rw [h1, h2, h3, h4]
        cases res with
        | response code data =>
          refine ⟨rfl, ?_, ?_, ?_⟩ <;> intro hst <;>
            rcases classifyResponse_fst code with hc | hc <;>
            simp [executeRequest, hc] at hst
        | error e =>
          cases e with
          | timeoutException msg => exact ⟨rfl, fun _ => ⟨rfl, rfl⟩, by simp [executeRequest, classifyError], by simp [executeRequest, classifyError]⟩
          | connectError msg => exact ⟨rfl, by simp [executeRequest, classifyError], by simp [executeRequest, classifyError], fun _ => ⟨rfl, rfl⟩⟩
          | connectTimeout msg => exact ⟨rfl, fun _ => ⟨rfl, rfl⟩, by simp [executeRequest, classifyError], by simp [executeRequest, classifyError]⟩
          | other msg =>
            by_cases hm : isDnsMessage msg <;>
              refine ⟨?_, ?_, ?_, ?_⟩ <;>
              simp [executeRequest, classifyError, hm]

/-- The run produced by the executor on `dbEx` for a timed-out firing. -/
def c3run : Run :=
  mkFinalRun (mkProvisionalRun 7 1 tgEx 0)
    (executeRequest (.error (.timeoutException "x")) 5) 1

/-- Witness for C3 on a concrete timed-out firing. -/
theorem claim_C3_witness :
    (executeSchedule dbEx 1 0 1 7 (.error (.timeoutException "x")) 5 false).2
        = some c3run ∧
    (c3run.latency_ms.isSome = true ∧
      (c3run.status = .TIMEOUT →
        c3run.status_code = none ∧ c3run.error_type = some "timeout") ∧
      (c3run.status = .DNS_ERROR →
        c3run.status_code = none ∧ c3run.error_type = some "dns") ∧
      (c3run.status = .CONNECTION_ERROR →
        c3run.status_code = none ∧ c3run.error_type = some "connection")) :=
  ⟨by decide, claim_C3 dbEx 1 0 1 7 (.error (.timeoutException "x")) 5 false c3run (by decide)⟩

theorem jobName_ne_stopJobName (sid : Nat) : jobName sid ≠ stopJobName sid := by
  intro h
  have hlen := congrArg String.length h
  rw [stopJobName, String.length_append] at hlen
  have h5 : "_stop".length = 5 := rfl
  omega

theorem mem_upsert_self (reg : List JobEntry) (j : JobEntry) : j ∈ upsertJob reg j := by
  unfold upsertJob
  exact List.mem_append_right _ (List.mem_singleton.mpr rfl)

theorem mem_upsert_of_ne (reg : List JobEntry) (j k : JobEntry)
    (h : j ∈ reg) (hne : j.id ≠ k.id) : j ∈ upsertJob reg k := by
  unfold upsertJob removeJobEntry
  refine List.mem_append_left _ ?_
  rw [List.mem_filter]
  exact ⟨h, by simpa [bne_iff_ne] using hne⟩

/-- A fresh ACTIVE WINDOW schedule (never yet installed). -/
def winSchedEx : Schedule :=
  { id := 2, name := "w2", target_id := 1, schedule_type := .WINDOW,
    interval_seconds := 1, duration_seconds := some 3, status := .ACTIVE,
    created_at := 0, started_at := none, stopped_at := none, job_id := none }

/-- C4: `add_job` on a WINDOW schedule: a null `started_at` is set to now
and persisted; `end_time = started_at + duration_seconds`; if
`now ≥ end_time` the schedule becomes STOPPED with `stopped_at = now` and
nothing is registered; otherwise the interval job (with that `end_time`)
and the one-shot stop hook `schedule_<id>_stop` at `end_time` are both
registered, and the stop hook's callback sets the schedule to STOPPED. -/
theorem claim_C4 (reg : List JobEntry) (s : Schedule) (now d : Nat)
    (hty : s.schedule_type = .WINDOW) (hd : s.duration_seconds = some d) :
    (addJob reg s now).raised = false ∧
    (addJob reg s now).schedule.started_at = some (s.started_at.getD now) ∧
    (s.started_at = none → (addJob reg s now).schedule.started_at = some now) ∧
    (s.started_at.getD now + d ≤ now →
      (addJob reg s now).schedule.status = .STOPPED ∧
      (addJob reg s now).schedule.stopped_at = some now ∧
      (addJob reg s now).registry = removeJobEntry reg (jobName s.id) ∧
      (addJob reg s now).schedule.job_id = s.job_id) ∧
    (now < s.started_at.getD now + d →
      (addJob reg s now).schedule.status = s.status ∧
      (addJob reg s now).schedule.stopped_at = s.stopped_at ∧
      (addJob reg s now).schedule.job_id = some (jobName s.id) ∧
      (⟨jobName s.id, .interval s.interval_seconds (some (s.started_at.getD now + d)),
          .fire s.id⟩ : JobEntry) ∈ (addJob reg s now).registry ∧
      (⟨stopJobName s.id, .date (s.started_at.getD now + d),
          .stopWindow s.id⟩ : JobEntry) ∈ (addJob reg s now).registry) ∧
    (∀ db t s0, findSchedule db s.id = some s0 →
      findSchedule (stopWindowSchedule db s.id t) s.id =
        some { s0 with status := .STOPPED, stopped_at := some t }) := by
  have hstop : ∀ db t s0, findSchedule db s.id = some s0 →
      findSchedule (stopWindowSchedule db s.id t) s.id =
        some { s0 with status := .STOPPED, stopped_at := some t } :=
    fun db t s0 h0 =>
      findSchedule_setSchedule db s.id
        (fun x => { x with status := .STOPPED, stopped_at := some t })
        (fun _ => rfl) s0 h0
  cases hsa : s.started_at with
  | none =>
    by_cases hend : now + d ≤ now
    · have heq : addJob reg s now =
          ⟨removeJobEntry reg (jobName s.id),
           { s with
             started_at := some now
             status := .STOPPED
             stopped_at := some now }, false⟩ := by
        simp [addJob, hty, hsa, hd, hend]
      rw [heq]
      refine ⟨rfl, by simp, fun _ => rfl, fun _ => ⟨rfl, rfl, rfl, rfl⟩,
        fun hlt => ?_, hstop⟩
      simp at hlt
      omega
    · have heq : addJob reg s now =
          ⟨upsertJob (upsertJob (removeJobEntry reg (jobName s.id))
              ⟨jobName s.id, .interval s.interval_seconds (some (now + d)), .fire s.id⟩)
              ⟨stopJobName s.id, .date (now + d), .stopWindow s.id⟩,
           { s with
             started_at := some now
             job_id := some (jobName s.id) }, false⟩ := by
        simp [addJob, hty, hsa, hd, hend]
      rw [heq]
      refine ⟨rfl, by simp, fun _ => rfl, fun hge => ?_,
        fun _ => ⟨rfl, rfl, rfl, ?_, ?_⟩, hstop⟩
      · simp at hge
        omega
      · simp only [Option.getD_none]
        exact mem_upsert_of_ne _ _ _ (mem_upsert_self _ _) (jobName_ne_stopJobName s.id)
      · simp only [Option.getD_none]
        exact mem_upsert_self _ _
  | some t0 =>
    by_cases hend : t0 + d ≤ now
    · have heq : addJob reg s now =
          ⟨removeJobEntry reg (jobName s.id),
           { s with
             status := .STOPPED
             stopped_at := some now }, false⟩ := by
        simp [addJob, hty, hsa, hd, hend]
      rw [heq]
      refine ⟨rfl, by simp [hsa], fun hn => Option.noConfusion hn, fun _ => ⟨rfl, rfl, rfl, rfl⟩,
        fun hlt => ?_, hstop⟩
      simp at hlt
      omega
    · have heq : addJob reg s now =
          ⟨upsertJob (upsertJob (removeJobEntry reg (jobName s.id))
              ⟨jobName s.id, .interval s.interval_seconds (some (t0 + d)), .fire s.id⟩)
              ⟨stopJobName s.id, .date (t0 + d), .stopWindow s.id⟩,
           { s with job_id := some (jobName s.id) }, false⟩ := by
        simp [addJob, hty, hsa, hd, hend]
      rw [heq]
      refine ⟨rfl, by simp [hsa], fun hn => Option.noConfusion hn, fun hge => ?_,
        fun _ => ⟨rfl, rfl, rfl, ?_, ?_⟩, hstop⟩
      · simp at hge
        omega
      · simp only [Option.getD_some]
        exact mem_upsert_of_ne _ _ _ (mem_upsert_self _ _) (jobName_ne_stopJobName s.id)
      · simp only [Option.getD_some]
        exact mem_upsert_self _ _

/-- Witness for C4: installing a fresh WINDOW schedule at `now = 10`. -/
theorem claim_C4_witness :
    (addJob [] winSchedEx 10).raised = false ∧
    (addJob [] winSchedEx 10).schedule.started_at = some 10 := by
  have h := claim_C4 [] winSchedEx 10 3 rfl rfl
  exact ⟨h.1, by simpa using h.2.1⟩

/-- C5: the firing callback on a missing or non-ACTIVE schedule returns
without touching the store at all — in particular a PAUSED schedule
produces no new Run (and no Attempt) while paused. -/
theorem claim_C5 (db : DB) (sid now1 now2 rid : Nat) (res : HTTPResult)
    (lat : Nat) (cf : Bool)
    (h : findSchedule db sid = none ∨
      ∃ s, findSchedule db sid = some s ∧ s.status ≠ .ACTIVE) :
    executeJob db sid now1 now2 rid res lat cf = db := by
  unfold executeJob
  rcases h with h | ⟨s, hs, hns⟩
  · rw [h]
  · rw [hs]
    simp [hns]

/-- Witness for C5: a firing of the paused WINDOW schedule leaves the
store unchanged. -/
theorem claim_C5_witness :
    executeJob dbPausedWin 1 0 1 7 (.response 200 ⟨[], "ok".data⟩) 5 false
      = dbPausedWin :=
  claim_C5 dbPausedWin 1 0 1 7 (.response 200 ⟨[], "ok".data⟩) 5 false
    (Or.inr ⟨pausedWinSched, by decide, by decide⟩)

/-- C6: a completed firing inserts exactly one Attempt row, with
`attempt_number = 1` and status, status_code, latency_ms, error_message,
error_type, started_at and completed_at all equal to the Run's final
fields. -/
theorem claim_C6 (db : DB) (sid now1 now2 rid : Nat) (res : HTTPResult)
    (lat : Nat) (s : Schedule) (tg : Target)
    (hs : findSchedule db sid = some s)
    (ht : findTarget db s.target_id = some tg) :
    ∃ r a, (executeSchedule db sid now1 now2 rid res lat false).2 = some r ∧
      (executeSchedule db sid now1 now2 rid res lat false).1.attempts
        = db.attempts ++ [a] ∧
      a.run_id = r.id ∧ a.attempt_number = 1 ∧
      a.status = r.status ∧ a.status_code = r.status_code ∧
      a.latency_ms = r.latency_ms ∧ a.error_message = r.error_message ∧
      a.error_type = r.error_type ∧ a.started_at = r.started_at ∧
      a.completed_at = r.completed_at := by
  refine ⟨mkFinalRun (mkProvisionalRun rid sid tg now1) (executeRequest res lat) now2,
    mkAttempt (mkFinalRun (mkProvisionalRun rid sid tg now1) (executeRequest res lat) now2),
    ?_, ?_, rfl, rfl, rfl, rfl, rfl, rfl, rfl, rfl, rfl⟩ <;>
  simp [executeSchedule, hs, ht]

/-- Witness for C6 on a concrete 200 firing over `dbEx`. -/
theorem claim_C6_witness :
    ∃ r a, (executeSchedule dbEx 1 0 1 7 (.response 200 ⟨[], "ok".data⟩) 5 false).2
        = some r ∧
      (executeSchedule dbEx 1 0 1 7 (.response 200 ⟨[], "ok".data⟩) 5 false).1.attempts
        = dbEx.attempts ++ [a] ∧
      a.run_id = r.id ∧ a.attempt_number = 1 ∧
      a.status = r.status ∧ a.status_code = r.status_code ∧
      a.latency_ms = r.latency_ms ∧ a.error_message = r.error_message ∧
      a.error_type = r.error_type ∧ a.started_at = r.started_at ∧
      a.completed_at = r.completed_at :=
  claim_C6 dbEx 1 0 1 7 (.response 200 ⟨[], "ok".data⟩) 5 schedEx tgEx
    (by decide) (by decide)

/-- The paused WINDOW schedule after its stop hook fires at time 9. -/
def stoppedWinSched : Schedule :=
  { pausedWinSched with status := .STOPPED, stopped_at := some 9 }

/-- C7 (counterexample): the WINDOW stop hook `_stop_window_schedule`
updates the row to STOPPED unconditionally, so when it fires on a schedule
the operator paused mid-window the core performs PAUSED → STOPPED, which
is not an arrow of the spec's state machine. -/
theorem claim_C7_cex :
    (findSchedule dbPausedWin 1).map Schedule.status = some .PAUSED ∧
    (findSchedule (stopWindowSchedule dbPausedWin 1 9) 1).map Schedule.status
      = some .STOPPED ∧
    ¬ specArrow .PAUSED .STOPPED := by
  refine ⟨by decide, by decide, by decide⟩

/-- C7 (amended): creation yields ACTIVE; the pause endpoint rejects
non-ACTIVE schedules unchanged and otherwise performs ACTIVE → PAUSED; the
resume endpoint rejects non-PAUSED schedules unchanged and otherwise
performs PAUSED → ACTIVE (both therefore reject any transition from
STOPPED); `add_job` on an ACTIVE schedule leaves it ACTIVE or, for an
expired WINDOW, moves it to STOPPED; and the WINDOW stop hook always sets
STOPPED, so any status change it performs is either the spec arrow
ACTIVE → STOPPED or the extra transition PAUSED → STOPPED. -/
theorem claim_C7 :
    (∀ c idv ts, (createdSchedule c idv ts).status = .ACTIVE) ∧
    (∀ db sid s, findSchedule db sid = some s → s.status ≠ .ACTIVE →
      pauseSchedule db sid = (db, .badRequest)) ∧
    (∀ db sid s s', findSchedule db sid = some s →
      findSchedule (pauseSchedule db sid).1 sid = some s' →
      s'.status ≠ s.status → s.status = .ACTIVE ∧ s'.status = .PAUSED) ∧
    (∀ db sid s, findSchedule db sid = some s → s.status ≠ .PAUSED →
      resumeSchedule db sid = (db, .badRequest)) ∧
    (∀ db sid s s', findSchedule db sid = some s →
      findSchedule (resumeSchedule db sid).1 sid = some s' →
      s'.status ≠ s.status → s.status = .PAUSED ∧ s'.status = .ACTIVE) ∧
    (∀ reg s now, s.status = .ACTIVE →
      (addJob reg s now).schedule.status = .ACTIVE ∨
      ((addJob reg s now).schedule.status = .STOPPED ∧
        s.schedule_type = .WINDOW)) ∧
    (∀ db sid t s s', findSchedule db sid = some s →
      findSchedule (stopWindowSchedule db sid t) sid = some s' →
      s'.status ≠ s.status →
      specArrow s.status s'.status ∨
        (s.status = .PAUSED ∧ s'.status = .STOPPED)) := by
  refine ⟨fun _ _ _ => rfl, ?_, ?_, ?_, ?_, ?_, ?_⟩
  · intro db sid s hs hns
    unfold pauseSchedule
    rw [hs]
    simp [hns]
  · intro db sid s s' hs hs' hne
    unfold pauseSchedule at hs'
    rw [hs] at hs'
    by_cases ha : s.status = .ACTIVE
    · simp only [ha] at hs'
      rw [if_neg (by simp)] at hs'
      have := findSchedule_setSchedule db sid
        (fun x => { x with status := .PAUSED }) (fun _ => rfl) s hs
      rw [this] at hs'
      injection hs' with hs'
      subst hs'
      exact ⟨ha, rfl⟩
    · have hcond : (s.status != ScheduleStatus.ACTIVE) = true := by
        simp [bne_iff_ne, ha]
      simp only [hcond, if_true] at hs'
      rw [hs] at hs'
      injection hs' with hs'
      subst hs'
      exact absurd rfl hne
  · intro db sid s hs hns
    unfold resumeSchedule
    rw [hs]
    simp [hns]
  · intro db sid s s' hs hs' hne
    unfold resumeSchedule at hs'
    rw [hs] at hs'
    by_cases ha : s.status = .PAUSED
    · simp only [ha] at hs'
      rw [if_neg (by simp)] at hs'
      have := findSchedule_setSchedule db sid
        (fun x => { x with status := .ACTIVE }) (fun _ => rfl) s hs
      rw [this] at hs'
      injection hs' with hs'
      subst hs'
      exact ⟨ha, rfl⟩
    · have hcond : (s.status != ScheduleStatus.PAUSED) = true := by
        simp [bne_iff_ne, ha]
      simp only [hcond, if_true] at hs'
      rw [hs] at hs'
      injection hs' with hs'
      subst hs'
      exact absurd rfl hne
  · intro reg s now hact
    cases hty : s.schedule_type with
    | INTERVAL =>
      left
      simp [addJob, hty, hact]
    | WINDOW =>
      cases hsa : s.started_at with
      | none =>
        cases hdur : s.duration_seconds with
        | none =>
          left
          simp [addJob, hty, hsa, hdur, hact]
        | some d =>
          by_cases hend : now + d ≤ now
          · right
            constructor
            · simp [addJob, hty, hsa, hdur, hend]
            · rfl
          · left
            simp [addJob, hty, hsa, hdur, hend, hact]
      | some t0 =>
        cases hdur : s.duration_seconds with
        | none =>
          left
          simp [addJob, hty, hsa, hdur, hact]
        | some d =>
          by_cases hend : t0 + d ≤ now
          · right
            constructor
            · simp [addJob, hty, hsa, hdur, hend]
            · rfl
          · left
            simp [addJob, hty, hsa, hdur, hend, hact]
  · intro db sid t s s' hs hs' hne
    have := findSchedule_setSchedule db sid
      (fun x => { x with status := .STOPPED, stopped_at := some t }) (fun _ => rfl) s hs
    rw [show stopWindowSchedule db sid t = setSchedule db sid
        (fun x => { x with status := .STOPPED, stopped_at := some t }) from rfl] at hs'
    rw [this] at hs'
    injection hs' with hs'
    subst hs'
    cases hst : s.status with
    | ACTIVE => exact Or.inl (Or.inr (Or.inr ⟨rfl, rfl⟩))
    | PAUSED => exact Or.inr ⟨rfl, rfl⟩
    | STOPPED => exact absurd (by rw [hst]) hne

/-- Witness for C7's amended theorem: creation status, a rejected pause on
the PAUSED fixture, and the stop hook firing on the PAUSED fixture
performing the extra PAUSED → STOPPED transition. -/
theorem claim_C7_witness :
    pauseSchedule dbPausedWin 1 = (dbPausedWin, .badRequest) ∧
    (specArrow pausedWinSched.status stoppedWinSched.status ∨
      (pausedWinSched.status = .PAUSED ∧ stoppedWinSched.status = .STOPPED)) := by
  constructor
  · exact claim_C7.2.1 dbPausedWin 1 pausedWinSched (by decide) (by decide)
  · exact claim_C7.2.2.2.2.2.2 dbPausedWin 1 9 pausedWinSched stoppedWinSched
      (by decide) (by decide) (by decide)

/-- C8 (counterexample): the truncation slice `[:10000]` acts on the
decoded text, i.e. on characters, not bytes: for a response whose body is
10001 copies of the two-byte character 'é', the stored `response_body` is
the first 10000 characters, which occupy 20000 > 10000 bytes — so the
stored body is not "the body truncated at 10,000 bytes". -/
theorem claim_C8_cex :
    ((executeSchedule dbEx 1 0 1 7
        (.response 200 ⟨[], List.replicate 10001 'é'⟩) 5 false).2.map
          Run.response_body)
      = some (some (List.replicate 10000 'é')) ∧
    utf8Len (List.replicate 10000 'é') = 20000 ∧ ¬ (20000 ≤ 10000) := by
  refine ⟨?_, ?_, by omega⟩
  · have htake : (List.replicate 10001 'é').take 10000 = List.replicate 10000 'é' := by
      rw [List.take_replicate]
      norm_num
    have hpipe : ∀ body : List Char,
        ((executeSchedule dbEx 1 0 1 7 (.response 200 ⟨[], body⟩) 5 false).2.map
          Run.response_body) = some (some (body.take 10000)) := by
      intro body
      simp [executeSchedule, findSchedule, findTarget, dbEx, schedEx, tgEx,
        executeRequest, classifyResponse, mkFinalRun, mkProvisionalRun]
    rw [hpipe, htake]
  · rw [utf8Len, List.map_replicate, List.sum_replicate, smul_eq_mul]
    decide

/-- C8 (amended): for every firing that receives a response, the stored
`response_body` is the decoded body truncated at 10,000 characters (so a
body of at most 10,000 characters is stored whole), while
`response_size_bytes` is the full untruncated byte length of the body. -/
theorem claim_C8 (db : DB) (sid now1 now2 rid code lat : Nat)
    (data : ResponseData) (s : Schedule) (tg : Target)
    (hs : findSchedule db sid = some s)
    (ht : findTarget db s.target_id = some tg) :
    ∃ r, (executeSchedule db sid now1 now2 rid (.response code data) lat false).2
        = some r ∧
      r.response_body = some (data.text.take 10000) ∧
      r.response_size_bytes = some (utf8Len data.text) ∧
      (data.text.length ≤ 10000 → r.response_body = some data.text) := by
  refine ⟨mkFinalRun (mkProvisionalRun rid sid tg now1)
      (executeRequest (.response code data) lat) now2, ?_, ?_, ?_, ?_⟩
  · simp [executeSchedule, hs, ht]
  · simp [mkFinalRun, executeRequest]
  · simp [mkFinalRun, executeRequest]
  · intro hlen
    simp [mkFinalRun, executeRequest, List.take_of_length_le hlen]

/-- Witness for C8 on a short 200 response over `dbEx`. -/
theorem claim_C8_witness :
    ∃ r, (executeSchedule dbEx 1 0 1 7
        (.response 200 ⟨[], "pong".data⟩) 5 false).2 = some r ∧
      r.response_body = some ("pong".data.take 10000) ∧
      r.response_size_bytes = some (utf8Len "pong".data) ∧
      ("pong".data.length ≤ 10000 → r.response_body = some "pong".data) :=
  claim_C8 dbEx 1 0 1 7 200 5 ⟨[], "pong".data⟩ schedEx tgEx (by decide) (by decide)

/-- C9 (counterexample): when a core-side exception hits the final commit
of a firing, the committed provisional run is left with null `error_type`
and null `completed_at`: no best-effort update to terminal
FAILED/"unknown" is attempted — the `except` block only logs, rolls back
and returns None. -/
theorem claim_C9_cex :
    ((executeSchedule dbEx 1 0 1 7 (.error (.other "boom")) 5 true).1.runs.map
        Run.error_type) = [none] ∧
    ((executeSchedule dbEx 1 0 1 7 (.error (.other "boom")) 5 true).1.runs.map
        Run.completed_at) = [none] ∧
    ([ (none : Option String) ] ≠ [some "unknown"]) := by
  refine ⟨by decide, by decide, by decide⟩

/-- C9 (amended): when an exception occurs after the provisional commit
(modelled at the final commit), the firing returns no run, the session is
rolled back so the store keeps only what was already committed — the
provisional run row (status FAILED, null error_type, null completed_at),
no attempt row and unchanged schedules — and no further update of that
run is attempted. -/
theorem claim_C9 (db : DB) (sid now1 now2 rid : Nat) (res : HTTPResult)
    (lat : Nat) (s : Schedule) (tg : Target)
    (hs : findSchedule db sid = some s)
    (ht : findTarget db s.target_id = some tg) :
    (executeSchedule db sid now1 now2 rid res lat true).2 = none ∧
    (executeSchedule db sid now1 now2 rid res lat true).1.runs
      = db.runs ++ [mkProvisionalRun rid sid tg now1] ∧
    (executeSchedule db sid now1 now2 rid res lat true).1.attempts = db.attempts ∧
    (executeSchedule db sid now1 now2 rid res lat true).1.schedules = db.schedules ∧
    (mkProvisionalRun rid sid tg now1).status = .FAILED ∧
    (mkProvisionalRun rid sid tg now1).error_type = none ∧
    (mkProvisionalRun rid sid tg now1).completed_at = none := by
  refine ⟨?_, ?_, ?_, ?_, rfl, rfl, rfl⟩ <;> simp [executeSchedule, hs, ht]

/-- Witness for C9 on a concrete firing over `dbEx` whose final commit
fails. -/
theorem claim_C9_witness :
    (executeSchedule dbEx 1 0 1 7 (.error (.other "boom")) 5 true).2 = none ∧
    (executeSchedule dbEx 1 0 1 7 (.error (.other "boom")) 5 true).1.runs
      = dbEx.runs ++ [mkProvisionalRun 7 1 tgEx 0] ∧
    (executeSchedule dbEx 1 0 1 7 (.error (.other "boom")) 5 true).1.attempts
      = dbEx.attempts ∧
    (executeSchedule dbEx 1 0 1 7 (.error (.other "boom")) 5 true).1.schedules
      = dbEx.schedules ∧
    (mkProvisionalRun 7 1 tgEx 0).status = .FAILED ∧
    (mkProvisionalRun 7 1 tgEx 0).error_type = none ∧
    (mkProvisionalRun 7 1 tgEx 0).completed_at = none :=
  claim_C9 dbEx 1 0 1 7 (.error (.other "boom")) 5 schedEx tgEx (by decide) (by decide)

theorem applyScheduleUpdate_frame (s : Schedule) (u : ScheduleUpdate) :
    (applyScheduleUpdate s u).id = s.id ∧
    (applyScheduleUpdate s u).status = s.status ∧
    (applyScheduleUpdate s u).target_id = s.target_id ∧
    (applyScheduleUpdate s u).schedule_type = s.schedule_type ∧
    (applyScheduleUpdate s u).created_at = s.created_at ∧
    (applyScheduleUpdate s u).started_at = s.started_at ∧
    (applyScheduleUpdate s u).stopped_at = s.stopped_at ∧
    (applyScheduleUpdate s u).job_id = s.job_id := by
  unfold applyScheduleUpdate
  cases u.name <;> cases u.interval_seconds <;> cases u.duration_seconds <;>
    exact ⟨rfl, rfl, rfl, rfl, rfl, rfl, rfl, rfl⟩

/-- C10: whatever combination of fields a schedule-update request
supplies, the update itself can change only name, interval_seconds and
duration_seconds: the schedule's status, target_id, schedule_type,
created_at, started_at, stopped_at and job handle are unchanged. -/
theorem claim_C10 (db : DB) (sid : Nat) (u : ScheduleUpdate) (s s' : Schedule)
    (hs : findSchedule db sid = some s)
    (hs' : findSchedule (updateSchedule db sid u).1 sid = some s') :
    s'.status = s.status ∧ s'.target_id = s.target_id ∧
    s'.schedule_type = s.schedule_type ∧ s'.created_at = s.created_at ∧
    s'.started_at = s.started_at ∧ s'.stopped_at = s.stopped_at ∧
    s'.job_id = s.job_id := by
  have happ := findSchedule_setSchedule db sid (fun x => applyScheduleUpdate x u)
    (fun x => (applyScheduleUpdate_frame x u).1) s hs
  unfold updateSchedule at hs'
  rw [hs] at hs'
  obtain ⟨-, h2, h3, h4, h5, h6, h7, h8⟩ := applyScheduleUpdate_frame s u
  cases hu : u.name with
  | none =>
    simp only [hu] at hs'
    rw [happ] at hs'
    injection hs' with hs'
    subst hs'
    exact ⟨h2, h3, h4, h5, h6, h7, h8⟩
  | some n =>
    simp only [hu] at hs'
    by_cases hc : nameConflict db sid n
    · rw [if_pos hc] at hs'
      rw [hs] at hs'
      injection hs' with hs'
      subst hs'
      exact ⟨rfl, rfl, rfl, rfl, rfl, rfl, rfl⟩
    · rw [if_neg hc] at hs'
      rw [happ] at hs'
      injection hs' with hs'
      subst hs'
      exact ⟨h2, h3, h4, h5, h6, h7, h8⟩

/-- The updated row on `dbEx` after renaming and re-timing schedule 1. -/
def updatedSchedEx : Schedule :=
  applyScheduleUpdate schedEx ⟨some "s1b", some 7, none⟩

/-- Witness for C10: a concrete update of name and interval on `dbEx`. -/
theorem claim_C10_witness :
    (findSchedule (updateSchedule dbEx 1 ⟨some "s1b", some 7, none⟩).1 1
      = some updatedSchedEx) ∧
    (updatedSchedEx.status = schedEx.status ∧
      updatedSchedEx.target_id = schedEx.target_id ∧
      updatedSchedEx.schedule_type = schedEx.schedule_type ∧
      updatedSchedEx.created_at = schedEx.created_at ∧
      updatedSchedEx.started_at = schedEx.started_at ∧
      updatedSchedEx.stopped_at = schedEx.stopped_at ∧
      updatedSchedEx.job_id = schedEx.job_id) :=
  ⟨by decide,
   claim_C10 dbEx 1 ⟨some "s1b", some 7, none⟩ schedEx updatedSchedEx
     (by decide) (by decide)⟩

end ApiScheduler
